import Mathlib

set_option maxRecDepth 10000

/-!
Verification of the VLESS WebSocket proxy repository.

The decoder `processVlessHeader` and its helpers are translated from
`src/src/websocket-handler.js` (the `vless-parser.js` module bundled there,
lines 125-340 of the file); the relay-session state machine is translated
from `src/websocket-proxy.js`.  Buffers are `Uint8Array` contents, modelled
as lists of natural numbers; every element of a real `Uint8Array` lies in
`0..255`, and theorems that depend on this add the bound as an explicit
hypothesis.
-/

deriving instance DecidableEq for Except

namespace Vless

/-- Contents of a `Uint8Array` delivered to the decoder. -/
abbrev Buffer := List Nat

/-- Ways JavaScript execution of the decoder could abort: a thrown
exception, or a read `buffer[i]` with `i` past the end of the buffer
(which yields `undefined` in JavaScript).  Every read in
`processVlessHeader` is guarded, and we prove below that neither abort is
reachable. -/
inductive JsAbort where
  | thrown (msg : String)
  | oobRead (idx : Nat)
deriving Repr, DecidableEq

/-- Reading `buffer[i]`: in bounds it yields the stored byte, out of
bounds it is flagged as an abort. -/
def readByte (buffer : Buffer) (i : Nat) : Except JsAbort Nat :=
  if i < buffer.length then .ok (buffer.getD i 0) else .error (.oobRead i)

/-- JavaScript `buffer.slice(a, b)`: elements from index `a` up to but not
including `b`, clamped to the buffer (never out of bounds). -/
def jsSlice (buffer : Buffer) (a b : Nat) : Buffer :=
  (buffer.drop a).take (b - a)

/-- JavaScript `buffer.slice(i)`: the suffix starting at index `i`. -/
def jsSliceFrom (buffer : Buffer) (i : Nat) : Buffer :=
  buffer.drop i

/-- JavaScript `n.toString(16)` for a nonnegative integer: lowercase
hexadecimal digits, no padding, `"0"` for zero. -/
def jsHexDigits (n : Nat) : List Char := Nat.toDigits 16 n

/-- JavaScript `s.padStart(2, '0')` on a digit list. -/
def padStart2 (l : List Char) : List Char :=
  List.replicate (2 - l.length) '0' ++ l

/-- The two (or, for a value above 255, more) characters one array element
contributes to the hex string built in `bytesToUUID`:
`b.toString(16).padStart(2, '0')`. -/
def byteHexPair (b : Nat) : List Char := padStart2 (jsHexDigits b)

/-- The dashed-hex string built by `bytesToUUID` from the byte array: the
concatenated per-byte hex pairs, chopped as
`substring(0,8)-substring(8,12)-substring(12,16)-substring(16,20)-substring(20,32)`. -/
def uuidFormat (bytes : Buffer) : String :=
  let hex := bytes.flatMap byteHexPair
  String.mk (hex.take 8) ++ "-" ++ String.mk ((hex.drop 8).take 4) ++ "-" ++
    String.mk ((hex.drop 12).take 4) ++ "-" ++ String.mk ((hex.drop 16).take 4) ++
    "-" ++ String.mk ((hex.drop 20).take 12)

/-- `bytesToUUID` from the parser module: throws unless given exactly 16
bytes, otherwise returns the canonical dashed-hex string. -/
def bytesToUUID (bytes : Buffer) : Except JsAbort String :=
  if bytes.length ≠ 16 then .error (.thrown "UUID must be exactly 16 bytes")
  else .ok (uuidFormat bytes)

/-- `validateCommand` from the parser module: only TCP (1) is accepted. -/
def validateCommand (command : Nat) : Bool := command == 1

/-- Models the platform `new TextDecoder().decode(bytes)` call used for
domain names: ASCII bytes decode to themselves, any other byte to the
replacement character.  No claim depends on the decoded text, only on the
cursor arithmetic around it. -/
def textDecode (bytes : Buffer) : String :=
  String.mk (bytes.map fun b => if b < 128 then Char.ofNat b else '�')

/-- One group of the IPv6 rendering:
`((buffer[o] << 8) | buffer[o+1]).toString(16)`. -/
def ipv6Group (hi lo : Nat) : String :=
  String.mk (jsHexDigits ((hi <<< 8) ||| lo))

/-- The IPv6 loop of `processVlessHeader`: `k` two-byte groups read at
offsets `off, off+2, …`. -/
def ipv6Groups (buffer : Buffer) (off : Nat) : Nat → Except JsAbort (List String)
  | 0 => .ok []
  | k + 1 =>
    (readByte buffer off).bind fun hi =>
    (readByte buffer (off + 1)).bind fun lo =>
    (ipv6Groups buffer (off + 2) k).map fun rest => ipv6Group hi lo :: rest

/-- The fields of the object returned by `processVlessHeader` on success
(`hasError: false`); the constant `message` field is omitted. -/
structure VlessHeader where
  addressRemote : String
  portRemote : Nat
  rawDataIndex : Nat
  vlessVersion : Nat
  command : Nat
  addressType : Nat
deriving Repr, DecidableEq

/-- The object returned by `processVlessHeader`: either `hasError: true`
with a message, or `hasError: false` with the parsed fields. -/
inductive ParseResult where
  | failure (message : String)
  | success (header : VlessHeader)
deriving Repr, DecidableEq

/-- `processVlessHeader` from the parser module, translated
guard-for-guard.  The running `offset` of the source is materialised: it is
`1` after the version byte, `17` after the UUID, `18` after the options
length, `18 + optLen` after skipping the options, `19 + optLen` after the
command, `21 + optLen` after the port and `22 + optLen` after the address
type.  Reads are instrumented so that an out-of-bounds access or a thrown
exception would surface as `Except.error`. -/
def processVlessHeader (buffer : Buffer) (expectedUUID : String) :
    Except JsAbort ParseResult :=
  if buffer.length < 23 then
    .ok (.failure "Invalid VLESS header: buffer too short")
  else
  (readByte buffer 0).bind fun version =>
  if version ≠ 0 then
    .ok (.failure ("Unsupported VLESS version: " ++ toString version ++
      ". Only version 0 is supported."))
  else
  (bytesToUUID (jsSlice buffer 1 17)).bind fun clientUUID =>
  if clientUUID ≠ expectedUUID then
    .ok (.failure "Authentication failed: Invalid UUID")
  else
  (readByte buffer 17).bind fun optLen =>
  if buffer.length < 18 + optLen then
    .ok (.failure "Invalid VLESS header: incomplete options data")
  else
  if buffer.length < (18 + optLen) + 1 then
    .ok (.failure "Invalid VLESS header: missing command")
  else
  (readByte buffer (18 + optLen)).bind fun command =>
  if !validateCommand command then
    .ok (.failure ("Unsupported command: " ++ toString command ++
      ". Only TCP (0x01) is supported."))
  else
  if buffer.length < (19 + optLen) + 2 then
    .ok (.failure "Invalid VLESS header: missing port")
  else
  (readByte buffer (19 + optLen)).bind fun portHi =>
  (readByte buffer (20 + optLen)).bind fun portLo =>
  if buffer.length < (21 + optLen) + 1 then
    .ok (.failure "Invalid VLESS header: missing address type")
  else
  (readByte buffer (21 + optLen)).bind fun addressType =>
  match addressType with
  | 1 =>
    if buffer.length < (22 + optLen) + 4 then
      .ok (.failure "Invalid VLESS header: incomplete IPv4 address")
    else
    (readByte buffer (22 + optLen)).bind fun a0 =>
    (readByte buffer (23 + optLen)).bind fun a1 =>
    (readByte buffer (24 + optLen)).bind fun a2 =>
    (readByte buffer (25 + optLen)).bind fun a3 =>
    .ok (.success
      { addressRemote := toString a0 ++ "." ++ toString a1 ++ "." ++
          toString a2 ++ "." ++ toString a3
        portRemote := (portHi <<< 8) ||| portLo
        rawDataIndex := (22 + optLen) + 4
        vlessVersion := version
        command := command
        addressType := 1 })
  | 2 =>
    if buffer.length < (22 + optLen) + 1 then
      .ok (.failure "Invalid VLESS header: missing domain length")
    else
    (readByte buffer (22 + optLen)).bind fun domainLength =>
    if buffer.length < (23 + optLen) + domainLength then
      .ok (.failure "Invalid VLESS header: incomplete domain name")
    else
    .ok (.success
      { addressRemote := textDecode (jsSlice buffer (23 + optLen) ((23 + optLen) + domainLength))
        portRemote := (portHi <<< 8) ||| portLo
        rawDataIndex := (23 + optLen) + domainLength
        vlessVersion := version
        command := command
        addressType := 2 })
  | 3 =>
    if buffer.length < (22 + optLen) + 16 then
      .ok (.failure "Invalid VLESS header: incomplete IPv6 address")
    else
    (ipv6Groups buffer (22 + optLen) 8).bind fun parts =>
    .ok (.success
      { addressRemote := String.intercalate ":" parts
        portRemote := (portHi <<< 8) ||| portLo
        rawDataIndex := (22 + optLen) + 16
        vlessVersion := version
        command := command
        addressType := 3 })
  | _ =>
    .ok (.failure ("Unsupported address type: " ++ toString addressType))

/-! Helper lemmas about the decoder's building blocks. -/

theorem readByte_ok {buffer : Buffer} {i : Nat} (h : i < buffer.length) :
    readByte buffer i = .ok (buffer.getD i 0) := by
  simp [readByte, h]

theorem ok_bind {α β : Type} (a : α) (f : α → Except JsAbort β) :
    (Except.ok a).bind f = f a := rfl

theorem bytesToUUID_ok {bytes : Buffer} (h : bytes.length = 16) :
    bytesToUUID bytes = .ok (uuidFormat bytes) := by
  simp [bytesToUUID, h]

theorem uuidSlice_length {buffer : Buffer} (h : ¬ buffer.length < 23) :
    (jsSlice buffer 1 17).length = 16 := by
  simp only [jsSlice, List.length_take, List.length_drop]
  omega

theorem ipv6Groups_ok (buffer : Buffer) :
    ∀ (k off : Nat), off + 2 * k ≤ buffer.length →
      ∃ parts, ipv6Groups buffer off k = .ok parts := by
  intro k
  induction k with
  | zero => exact fun off _ => ⟨[], rfl⟩
  | succ n ih =>
    intro off h
    obtain ⟨parts, hp⟩ := ih (off + 2) (by omega)
    refine ⟨ipv6Group (buffer.getD off 0) (buffer.getD (off + 1) 0) :: parts, ?_⟩
    rw [ipv6Groups, readByte_ok (by omega), ok_bind,
      readByte_ok (by omega), ok_bind, hp]
    rfl

theorem strData_append (s t : String) : (s ++ t).data = s.data ++ t.data := by
  cases s
  cases t
  rfl

theorem strLen_append (s t : String) : (s ++ t).length = s.length + t.length := by
  show (s ++ t).data.length = s.data.length + t.data.length
  rw [strData_append, List.length_append]

theorem head?_append_left {α} (l₁ l₂ : List α) (h : l₁ ≠ []) :
    (l₁ ++ l₂).head? = l₁.head? := by
  cases l₁ with
  | nil => exact absurd rfl h
  | cons a t => rfl

/-- Interpolated failure messages of shape `p ++ t ++ q` are never the
too-short message, for length reasons. -/
theorem interp_msg_ne (p q t : String) (h : 38 < p.length + q.length) :
    p ++ t ++ q ≠ "Invalid VLESS header: buffer too short" := by
  intro he
  have hlen := congrArg String.length he
  rw [strLen_append, strLen_append] at hlen
  have ht : ("Invalid VLESS header: buffer too short" : String).length = 38 := by decide
  omega

/-- The unsupported-address-type message is never the too-short message:
their first characters differ. -/
theorem unsupported_addr_ne (t : String) :
    "Unsupported address type: " ++ t ≠ "Invalid VLESS header: buffer too short" := by
  intro he
  have hd : ("Unsupported address type: " ++ t).data.head? =
      ("Invalid VLESS header: buffer too short" : String).data.head? :=
    congrArg (fun s => s.data.head?) he
  rw [strData_append, head?_append_left _ _ (by decide)] at hd
  exact absurd hd (by decide)

/-- The facts the decoder guarantees whenever it succeeds, in terms of the
raw buffer: the length passed the 23-byte check, the canonical dashed-hex
form of the 16 token bytes equals the expected token, and the returned
payload offset is determined by the options length and the address field
and never exceeds the buffer length. -/
def DecodeSuccessFacts (buffer : Buffer) (token : String) (hdr : VlessHeader) : Prop :=
  23 ≤ buffer.length ∧
  uuidFormat (jsSlice buffer 1 17) = token ∧
  ((hdr.addressType = 1 ∧
      hdr.rawDataIndex = 22 + buffer.getD 17 0 + 4 ∧
      hdr.rawDataIndex ≤ buffer.length) ∨
   (hdr.addressType = 2 ∧
      hdr.rawDataIndex =
        22 + buffer.getD 17 0 + (1 + buffer.getD (22 + buffer.getD 17 0) 0) ∧
      hdr.rawDataIndex ≤ buffer.length) ∨
   (hdr.addressType = 3 ∧
      hdr.rawDataIndex = 22 + buffer.getD 17 0 + 16 ∧
      hdr.rawDataIndex ≤ buffer.length))

/-- Master characterization of one decoder call: it always returns a
JavaScript value (never aborts), a success satisfies
`DecodeSuccessFacts`, and the too-short message arises only from the
initial length check. -/
theorem processVlessHeader_cases (buffer : Buffer) (token : String) :
    ∃ r : ParseResult, processVlessHeader buffer token = .ok r ∧
      (∀ hdr, r = .success hdr → DecodeSuccessFacts buffer token hdr) ∧
      (∀ m, r = .failure m →
        m = "Invalid VLESS header: buffer too short" → buffer.length < 23) := by
  by_cases h23 : buffer.length < 23
  · refine ⟨.failure "Invalid VLESS header: buffer too short", ?_, ?_, ?_⟩
    · rw [processVlessHeader.eq_def, if_pos h23]
    · intro hdr h
      exact ParseResult.noConfusion h
    · intro m _ _
      exact h23
  · rw [processVlessHeader.eq_def, if_neg h23, readByte_ok (show (0:Nat) < buffer.length from by omega)]
    simp only [ok_bind]
    by_cases hv : buffer.getD 0 0 ≠ 0
    · rw [if_pos hv]
      refine ⟨_, rfl, ?_, ?_⟩
      · intro hdr h
        exact ParseResult.noConfusion h
      · intro m hm htoo
        injection hm with h1
        exact absurd (h1.trans htoo) (interp_msg_ne _ _ _ (by decide))
    · rw [if_neg hv, bytesToUUID_ok (uuidSlice_length h23)]
      simp only [ok_bind]
      by_cases hu : uuidFormat (jsSlice buffer 1 17) ≠ token
      · rw [if_pos hu]
        refine ⟨_, rfl, ?_, ?_⟩
        · intro hdr h
          exact ParseResult.noConfusion h
        · intro m hm htoo
          injection hm with h1
          exact absurd (h1.trans htoo) (by decide)
      · rw [if_neg hu]
        have huuid : uuidFormat (jsSlice buffer 1 17) = token := not_not.mp hu
        rw [readByte_ok (show 17 < buffer.length from by omega)]
        simp only [ok_bind]
        by_cases hopt : buffer.length < 18 + buffer.getD 17 0
        · rw [if_pos hopt]
          refine ⟨_, rfl, ?_, ?_⟩
          · intro hdr h
            exact ParseResult.noConfusion h
          · intro m hm htoo
            injection hm with h1
            exact absurd (h1.trans htoo) (by decide)
        · rw [if_neg hopt]
          by_cases hc1 : buffer.length < (18 + buffer.getD 17 0) + 1
          · rw [if_pos hc1]
            refine ⟨_, rfl, ?_, ?_⟩
            · intro hdr h
              exact ParseResult.noConfusion h
            · intro m hm htoo
              injection hm with h1
              exact absurd (h1.trans htoo) (by decide)
          · rw [if_neg hc1,
              readByte_ok (show 18 + buffer.getD 17 0 < buffer.length from by omega)]
            simp only [ok_bind]
            by_cases hcmd : (!validateCommand (buffer.getD (18 + buffer.getD 17 0) 0)) = true
            · rw [if_pos hcmd]
              refine ⟨_, rfl, ?_, ?_⟩
              · intro hdr h
                exact ParseResult.noConfusion h
              · intro m hm htoo
                injection hm with h1
                exact absurd (h1.trans htoo) (interp_msg_ne _ _ _ (by decide))
            · rw [if_neg hcmd]
              by_cases hport : buffer.length < (19 + buffer.getD 17 0) + 2
              · rw [if_pos hport]
                refine ⟨_, rfl, ?_, ?_⟩
                · intro hdr h
                  exact ParseResult.noConfusion h
                · intro m hm htoo
                  injection hm with h1
                  exact absurd (h1.trans htoo) (by decide)
              · rw [if_neg hport,
                  readByte_ok (show 19 + buffer.getD 17 0 < buffer.length from by omega)]
                simp only [ok_bind]
                rw [readByte_ok (show 20 + buffer.getD 17 0 < buffer.length from by omega)]
                simp only [ok_bind]
                by_cases haddr : buffer.length < (21 + buffer.getD 17 0) + 1
                · rw [if_pos haddr]
                  refine ⟨_, rfl, ?_, ?_⟩
                  · intro hdr h
                    exact ParseResult.noConfusion h
                  · intro m hm htoo
                    injection hm with h1
                    exact absurd (h1.trans htoo) (by decide)
                · rw [if_neg haddr,
                    readByte_ok (show 21 + buffer.getD 17 0 < buffer.length from by omega)]
                  simp only [ok_bind]
                  split
                  · -- addressType = 1: IPv4
                    by_cases h4 : buffer.length < (22 + buffer.getD 17 0) + 4
                    · rw [if_pos h4]
                      refine ⟨_, rfl, ?_, ?_⟩
                      · intro hdr h
                        exact ParseResult.noConfusion h
                      · intro m hm htoo
                        injection hm with h1
                        exact absurd (h1.trans htoo) (by decide)
                    · rw [if_neg h4,
                        readByte_ok (show 22 + buffer.getD 17 0 < buffer.length from by omega)]
                      simp only [ok_bind]
                      rw [readByte_ok (show 23 + buffer.getD 17 0 < buffer.length from by omega)]
                      simp only [ok_bind]
                      rw [readByte_ok (show 24 + buffer.getD 17 0 < buffer.length from by omega)]
                      simp only [ok_bind]
                      rw [readByte_ok (show 25 + buffer.getD 17 0 < buffer.length from by omega)]
                      simp only [ok_bind]
                      refine ⟨_, rfl, ?_, ?_⟩
                      · intro hdr h
                        injection h with h1
                        subst h1
                        unfold DecodeSuccessFacts
                        exact ⟨by omega, huuid, Or.inl ⟨rfl, by dsimp only <;> omega, by dsimp only <;> omega⟩⟩
                      · intro m hm
                        exact ParseResult.noConfusion hm
                  · -- addressType = 2: domain
                    by_cases hd1 : buffer.length < (22 + buffer.getD 17 0) + 1
                    · rw [if_pos hd1]
                      refine ⟨_, rfl, ?_, ?_⟩
                      · intro hdr h
                        exact ParseResult.noConfusion h
                      · intro m hm htoo
                        injection hm with h1
                        exact absurd (h1.trans htoo) (by decide)
                    · rw [if_neg hd1,
                        readByte_ok (show 22 + buffer.getD 17 0 < buffer.length from by omega)]
                      simp only [ok_bind]
                      by_cases hd2 : buffer.length <
                          (23 + buffer.getD 17 0) + buffer.getD (22 + buffer.getD 17 0) 0
                      · rw [if_pos hd2]
                        refine ⟨_, rfl, ?_, ?_⟩
                        · intro hdr h
                          exact ParseResult.noConfusion h
                        · intro m hm htoo
                          injection hm with h1
                          exact absurd (h1.trans htoo) (by decide)
                      · rw [if_neg hd2]
                        refine ⟨_, rfl, ?_, ?_⟩
                        · intro hdr h
                          injection h with h1
                          subst h1
                          unfold DecodeSuccessFacts
                          exact ⟨by omega, huuid,
                            Or.inr (Or.inl ⟨rfl, by dsimp only <;> omega, by dsimp only <;> omega⟩)⟩
                        · intro m hm
                          exact ParseResult.noConfusion hm
                  · -- addressType = 3: IPv6
                    by_cases h16 : buffer.length < (22 + buffer.getD 17 0) + 16
                    · rw [if_pos h16]
                      refine ⟨_, rfl, ?_, ?_⟩
                      · intro hdr h
                        exact ParseResult.noConfusion h
                      · intro m hm htoo
                        injection hm with h1
                        exact absurd (h1.trans htoo) (by decide)
                    · rw [if_neg h16]
                      obtain ⟨parts, hp⟩ :=
                        ipv6Groups_ok buffer 8 (22 + buffer.getD 17 0) (by omega)
                      rw [hp]
                      simp only [ok_bind]
                      refine ⟨_, rfl, ?_, ?_⟩
                      · intro hdr h
                        injection h with h1
                        subst h1
                        unfold DecodeSuccessFacts
                        exact ⟨by omega, huuid,
                            Or.inr (Or.inr ⟨rfl, by dsimp only <;> omega, by dsimp only <;> omega⟩)⟩
                      · intro m hm
                        exact ParseResult.noConfusion hm
                  · -- unsupported address type
                    refine ⟨_, rfl, ?_, ?_⟩
                    · intro hdr h
                      exact ParseResult.noConfusion h
                    · intro m hm htoo
                      injection hm with h1
                      exact absurd (h1.trans htoo) (unsupported_addr_ne _)

/-! Canonical token shape, and the spec's address-field-width function. -/

/-- Width of the address field as stated by the spec: 4 for IPv4 (tag 1),
1 + domainLength for a domain (tag 2), 16 for IPv6 (tag 3). -/
def specAddressFieldWidth (addressType domainLength : Nat) : Nat :=
  if addressType = 1 then 4
  else if addressType = 2 then 1 + domainLength
  else 16

/-- Lowercase hexadecimal digit. -/
def isHexLower (c : Char) : Bool :=
  ('0' ≤ c && c ≤ '9') || ('a' ≤ c && c ≤ 'f')

/-- Character-level check of the canonical dashed-hex shape: 36 characters,
lowercase hex in groups of 8-4-4-4-12 separated by dashes. -/
def uuidShapeChars (l : List Char) : Bool :=
  l.length == 36 &&
  (l.take 8).all isHexLower && ((l.drop 8).take 1 == ['-']) &&
  ((l.drop 9).take 4).all isHexLower && ((l.drop 13).take 1 == ['-']) &&
  ((l.drop 14).take 4).all isHexLower && ((l.drop 18).take 1 == ['-']) &&
  ((l.drop 19).take 4).all isHexLower && ((l.drop 23).take 1 == ['-']) &&
  (l.drop 24).all isHexLower

/-- A string has the canonical dashed-hex token shape. -/
def isUUIDShape (s : String) : Bool := uuidShapeChars s.data

/-- The `CONFIG.UUID` value of `src/config.js`. -/
def CONFIG_UUID : String :=
  "8cd43dab-a5ae-4634-b9b1-726a262f-25f6-4280-8c7b-97d67b3e1298"

theorem strMk_data (l : List Char) : (String.mk l).data = l := rfl

theorem all_take (p : Char → Bool) (l : List Char) (n : Nat)
    (h : l.all p = true) : (l.take n).all p = true := by
  rw [List.all_eq_true] at h ⊢
  exact fun x hx => h x (List.take_subset _ _ hx)

theorem all_drop (p : Char → Bool) (l : List Char) (n : Nat)
    (h : l.all p = true) : (l.drop n).all p = true := by
  rw [List.all_eq_true] at h ⊢
  exact fun x hx => h x (List.drop_subset _ _ hx)

/-- A byte below 256 contributes exactly two lowercase hex characters. -/
theorem byteHexPair_spec : ∀ b, b < 256 →
    (byteHexPair b).length = 2 ∧ (byteHexPair b).all isHexLower = true := by
  decide

/-- The concatenated hex pairs of a byte list: length and digit facts. -/
theorem hex_flatMap (bytes : Buffer) (hb : ∀ b ∈ bytes, b < 256) :
    (bytes.flatMap byteHexPair).length = 2 * bytes.length ∧
    (bytes.flatMap byteHexPair).all isHexLower = true := by
  induction bytes with
  | nil => exact ⟨rfl, rfl⟩
  | cons a t ih =>
    have ha : a < 256 := hb a (by simp)
    have ht : ∀ b ∈ t, b < 256 := fun b hmem => hb b (by simp [hmem])
    obtain ⟨ih1, ih2⟩ := ih ht
    obtain ⟨hp1, hp2⟩ := byteHexPair_spec a ha
    constructor
    · rw [List.flatMap_cons, List.length_append, hp1, ih1, List.length_cons]
      omega
    · rw [List.flatMap_cons, List.all_append, hp2, ih2]
      rfl

/-- The character list of the dashed-hex string, in grouped form. -/
theorem uuidFormat_data (bytes : Buffer) :
    (uuidFormat bytes).data =
      (bytes.flatMap byteHexPair).take 8 ++ '-' ::
      (((bytes.flatMap byteHexPair).drop 8).take 4 ++ '-' ::
      (((bytes.flatMap byteHexPair).drop 12).take 4 ++ '-' ::
      (((bytes.flatMap byteHexPair).drop 16).take 4 ++ '-' ::
      ((bytes.flatMap byteHexPair).drop 20).take 12))) := by
  have hdash : ("-" : String).data = ['-'] := rfl
  simp [uuidFormat, strData_append, strMk_data, hdash, List.append_assoc]

/-- Any grouped list of hex runs of lengths 8-4-4-4-12 separated by dashes
passes the shape check. -/
theorem uuidShapeChars_build (g1 g2 g3 g4 g5 : List Char)
    (h1 : g1.length = 8) (h2 : g2.length = 4) (h3 : g3.length = 4)
    (h4 : g4.length = 4) (h5 : g5.length = 12)
    (a1 : g1.all isHexLower = true) (a2 : g2.all isHexLower = true)
    (a3 : g3.all isHexLower = true) (a4 : g4.all isHexLower = true)
    (a5 : g5.all isHexLower = true) :
    uuidShapeChars
      (g1 ++ '-' :: (g2 ++ '-' :: (g3 ++ '-' :: (g4 ++ '-' :: g5)))) = true := by
  have d8 : (g1 ++ '-' :: (g2 ++ '-' :: (g3 ++ '-' :: (g4 ++ '-' :: g5)))).drop 8 =
      '-' :: (g2 ++ '-' :: (g3 ++ '-' :: (g4 ++ '-' :: g5))) := by
    rw [← h1, List.drop_left]
  have t8 : (g1 ++ '-' :: (g2 ++ '-' :: (g3 ++ '-' :: (g4 ++ '-' :: g5)))).take 8 = g1 := by
    rw [← h1, List.take_left]
  have d9 : (g1 ++ '-' :: (g2 ++ '-' :: (g3 ++ '-' :: (g4 ++ '-' :: g5)))).drop 9 =
      g2 ++ '-' :: (g3 ++ '-' :: (g4 ++ '-' :: g5)) := by
    rw [show (9 : Nat) = 8 + 1 from rfl, ← List.drop_drop, d8]
    rfl
  have t9 : (g2 ++ '-' :: (g3 ++ '-' :: (g4 ++ '-' :: g5))).take 4 = g2 := by
    rw [← h2, List.take_left]
  have d13 : (g1 ++ '-' :: (g2 ++ '-' :: (g3 ++ '-' :: (g4 ++ '-' :: g5)))).drop 13 =
      '-' :: (g3 ++ '-' :: (g4 ++ '-' :: g5)) := by
    rw [show (13 : Nat) = 9 + 4 from rfl, ← List.drop_drop, d9, ← h2, List.drop_left]
  have d14 : (g1 ++ '-' :: (g2 ++ '-' :: (g3 ++ '-' :: (g4 ++ '-' :: g5)))).drop 14 =
      g3 ++ '-' :: (g4 ++ '-' :: g5) := by
    rw [show (14 : Nat) = 13 + 1 from rfl, ← List.drop_drop, d13]
    rfl
  have t14 : (g3 ++ '-' :: (g4 ++ '-' :: g5)).take 4 = g3 := by
    rw [← h3, List.take_left]
  have d18 : (g1 ++ '-' :: (g2 ++ '-' :: (g3 ++ '-' :: (g4 ++ '-' :: g5)))).drop 18 =
      '-' :: (g4 ++ '-' :: g5) := by
    rw [show (18 : Nat) = 14 + 4 from rfl, ← List.drop_drop, d14, ← h3, List.drop_left]
  have d19 : (g1 ++ '-' :: (g2 ++ '-' :: (g3 ++ '-' :: (g4 ++ '-' :: g5)))).drop 19 =
      g4 ++ '-' :: g5 := by
    rw [show (19 : Nat) = 18 + 1 from rfl, ← List.drop_drop, d18]
    rfl
  have t19 : (g4 ++ '-' :: g5).take 4 = g4 := by
    rw [← h4, List.take_left]
  have d23 : (g1 ++ '-' :: (g2 ++ '-' :: (g3 ++ '-' :: (g4 ++ '-' :: g5)))).drop 23 =
      '-' :: g5 := by
    rw [show (23 : Nat) = 19 + 4 from rfl, ← List.drop_drop, d19, ← h4, List.drop_left]
  have d24 : (g1 ++ '-' :: (g2 ++ '-' :: (g3 ++ '-' :: (g4 ++ '-' :: g5)))).drop 24 =
      g5 := by
    rw [show (24 : Nat) = 23 + 1 from rfl, ← List.drop_drop, d23]
    rfl
  have hlen : (g1 ++ '-' :: (g2 ++ '-' :: (g3 ++ '-' :: (g4 ++ '-' :: g5)))).length = 36 := by
    simp [List.length_append, h1, h2, h3, h4, h5]
  unfold uuidShapeChars
  rw [hlen, t8, d8, d9, t9, d13, d14, t14, d18, d19, t19, d23, d24]
  simp [a1, a2, a3, a4, a5]

/-- The dashed-hex form of any 16 real bytes passes the shape check. -/
theorem uuidFormat_shape (bytes : Buffer) (h16 : bytes.length = 16)
    (hb : ∀ b ∈ bytes, b < 256) : isUUIDShape (uuidFormat bytes) = true := by
  obtain ⟨hlen, hall⟩ := hex_flatMap bytes hb
  rw [h16] at hlen
  unfold isUUIDShape
  rw [uuidFormat_data]
  refine uuidShapeChars_build _ _ _ _ _ ?_ ?_ ?_ ?_ ?_ ?_ ?_ ?_ ?_ ?_
  · rw [List.length_take]
    omega
  · rw [List.length_take, List.length_drop]
    omega
  · rw [List.length_take, List.length_drop]
    omega
  · rw [List.length_take, List.length_drop]
    omega
  · rw [List.length_take, List.length_drop]
    omega
  · exact all_take _ _ _ hall
  · exact all_take _ _ _ (all_drop _ _ _ hall)
  · exact all_take _ _ _ (all_drop _ _ _ hall)
  · exact all_take _ _ _ (all_drop _ _ _ hall)
  · exact all_take _ _ _ (all_drop _ _ _ hall)

/-! Concrete buffers used by witnesses. -/

/-- A concrete well-formed header with a domain address and one trailing
payload byte: version 0, all-zero token, two options bytes, TCP command,
port 80, address type 2 with the three ASCII bytes of `abc`, payload
`[222]`. -/
def domBuf : Buffer :=
  [0] ++ List.replicate 16 0 ++ [2, 9, 9, 1, 0, 80, 2, 3, 97, 98, 99, 222]

/-- The dashed-hex form of the all-zero token. -/
def zeroToken : String := "00000000-0000-0000-0000-000000000000"

/-- The header object the decoder returns for `domBuf`. -/
def domHdr : VlessHeader :=
  { addressRemote := "abc", portRemote := 80, rawDataIndex := 28,
    vlessVersion := 0, command := 1, addressType := 2 }

/-! The decoder claims. -/

/-- C1: decoding is total: for every buffer (of any length) and every
expected token, `processVlessHeader` returns an ordinary result object —
a typed failure when the buffer is too short for a field — and never
reaches the instrumented out-of-bounds read or a thrown exception. -/
theorem c1_decode_total_no_oob (buffer : Buffer) (expectedUUID : String) :
    ∃ r : ParseResult, processVlessHeader buffer expectedUUID = .ok r := by
  obtain ⟨r, hr, -, -⟩ := processVlessHeader_cases buffer expectedUUID
  exact ⟨r, hr⟩

/-- C2: whenever the canonical dashed-hex form of the 16 token bytes
differs from the expected token, the decoder returns exactly the
authentication failure, no matter what the remaining fields contain; the
comparison is on the canonical string produced by `bytesToUUID`. -/
theorem c2_auth_failure (buffer : Buffer) (token : String)
    (h23 : 23 ≤ buffer.length) (hver : buffer.getD 0 0 = 0)
    (hne : uuidFormat (jsSlice buffer 1 17) ≠ token) :
    processVlessHeader buffer token =
      .ok (.failure "Authentication failed: Invalid UUID") := by
  rw [processVlessHeader.eq_def, if_neg (by omega),
    readByte_ok (show (0 : Nat) < buffer.length from by omega)]
  simp only [ok_bind]
  rw [hver, if_neg (by omega), bytesToUUID_ok (uuidSlice_length (by omega))]
  simp only [ok_bind]
  rw [if_pos hne]

theorem c2_auth_failure_witness :
    processVlessHeader (List.replicate 23 0) "x" =
      .ok (.failure "Authentication failed: Invalid UUID") :=
  c2_auth_failure (List.replicate 23 0) "x" (by decide) (by decide) (by decide)

/-- C3: on success, the returned payload offset equals
`22 + optionsLength + addressFieldWidth`, with the width 4 for IPv4,
`1 + domainLength` for a domain and 16 for IPv6. -/
theorem c3_payload_offset (buffer : Buffer) (token : String) (hdr : VlessHeader)
    (h : processVlessHeader buffer token = .ok (.success hdr)) :
    hdr.rawDataIndex =
      22 + buffer.getD 17 0 +
        specAddressFieldWidth hdr.addressType
          (buffer.getD (22 + buffer.getD 17 0) 0) := by
  obtain ⟨r, hr, hsucc, -⟩ := processVlessHeader_cases buffer token
  rw [hr] at h
  injection h with h1
  have hf := hsucc hdr h1
  unfold DecodeSuccessFacts at hf
  obtain ⟨-, -, hcase⟩ := hf
  rcases hcase with ⟨hat, heq, -⟩ | ⟨hat, heq, -⟩ | ⟨hat, heq, -⟩ <;>
    rw [heq, hat] <;> simp [specAddressFieldWidth]

theorem c3_payload_offset_witness :
    domHdr.rawDataIndex =
      22 + domBuf.getD 17 0 +
        specAddressFieldWidth domHdr.addressType
          (domBuf.getD (22 + domBuf.getD 17 0) 0) :=
  c3_payload_offset domBuf zeroToken domHdr (by decide)

/-- C4: the initial length check rejects exactly the buffers shorter than
23 bytes: such a buffer yields the too-short failure, and a buffer of
length at least 23 never produces that failure (though it may fail a later
check). -/
theorem c4_min_length_check (buffer : Buffer) (token : String) :
    (buffer.length < 23 →
      processVlessHeader buffer token =
        .ok (.failure "Invalid VLESS header: buffer too short")) ∧
    (23 ≤ buffer.length →
      processVlessHeader buffer token ≠
        .ok (.failure "Invalid VLESS header: buffer too short")) := by
  constructor
  · intro h
    rw [processVlessHeader.eq_def, if_pos h]
  · intro h23 hcontra
    obtain ⟨r, hr, -, hmsg⟩ := processVlessHeader_cases buffer token
    rw [hr] at hcontra
    injection hcontra with h1
    have := hmsg _ h1 rfl
    omega

theorem c4_min_length_check_witness :
    processVlessHeader [] "x" =
      .ok (.failure "Invalid VLESS header: buffer too short") ∧
    processVlessHeader (List.replicate 23 0) "x" ≠
      .ok (.failure "Invalid VLESS header: buffer too short") :=
  ⟨(c4_min_length_check [] "x").1 (by decide),
   (c4_min_length_check (List.replicate 23 0) "x").2 (by decide)⟩

/-- C9: on success the payload offset never exceeds the buffer length, so
the initial-payload slice `buffer.slice(rawDataIndex)` is in bounds, and
it is empty exactly when `rawDataIndex` equals the buffer length. -/
theorem c9_payload_slice_in_bounds (buffer : Buffer) (token : String)
    (hdr : VlessHeader)
    (h : processVlessHeader buffer token = .ok (.success hdr)) :
    hdr.rawDataIndex ≤ buffer.length ∧
      ((jsSliceFrom buffer hdr.rawDataIndex).length = 0 ↔
        hdr.rawDataIndex = buffer.length) := by
  obtain ⟨r, hr, hsucc, -⟩ := processVlessHeader_cases buffer token
  rw [hr] at h
  injection h with h1
  have hf := hsucc hdr h1
  unfold DecodeSuccessFacts at hf
  obtain ⟨-, -, hcase⟩ := hf
  have hle : hdr.rawDataIndex ≤ buffer.length := by
    rcases hcase with ⟨-, -, hb⟩ | ⟨-, -, hb⟩ | ⟨-, -, hb⟩ <;> exact hb
  refine ⟨hle, ?_⟩
  simp only [jsSliceFrom, List.length_drop]
  omega

theorem c9_payload_slice_in_bounds_witness :
    domHdr.rawDataIndex ≤ domBuf.length ∧
      ((jsSliceFrom domBuf domHdr.rawDataIndex).length = 0 ↔
        domHdr.rawDataIndex = domBuf.length) :=
  c9_payload_slice_in_bounds domBuf zeroToken domHdr (by decide)

/-- C10: for every 16 real bytes, `bytesToUUID` yields a 36-character
lowercase dashed-hex string in 8-4-4-4-12 groups; consequently the
decoder can succeed only when the expected token has exactly that shape,
the `CONFIG.UUID` string of `src/config.js` does not have it, and with
that token authentication fails on every possible buffer. -/
theorem c10_token_shape :
    (∀ bytes : Buffer, bytes.length = 16 → (∀ b ∈ bytes, b < 256) →
      isUUIDShape (uuidFormat bytes) = true) ∧
    (∀ (buffer : Buffer) (token : String) (hdr : VlessHeader),
      (∀ b ∈ buffer, b < 256) →
      processVlessHeader buffer token = .ok (.success hdr) →
      isUUIDShape token = true) ∧
    isUUIDShape CONFIG_UUID = false ∧
    (∀ (buffer : Buffer) (hdr : VlessHeader), (∀ b ∈ buffer, b < 256) →
      processVlessHeader buffer CONFIG_UUID ≠ .ok (.success hdr)) := by
  have partB : ∀ (buffer : Buffer) (token : String) (hdr : VlessHeader),
      (∀ b ∈ buffer, b < 256) →
      processVlessHeader buffer token = .ok (.success hdr) →
      isUUIDShape token = true := by
    intro buffer token hdr hb h
    obtain ⟨r, hr, hsucc, -⟩ := processVlessHeader_cases buffer token
    rw [hr] at h
    injection h with h1
    have hf := hsucc hdr h1
    unfold DecodeSuccessFacts at hf
    obtain ⟨h23, htok, -⟩ := hf
    rw [← htok]
    refine uuidFormat_shape _ (uuidSlice_length (by omega)) ?_
    intro b hbmem
    exact hb b (List.drop_subset _ _ (List.take_subset _ _ hbmem))
  refine ⟨fun bytes h16 hb => uuidFormat_shape bytes h16 hb, partB, by decide, ?_⟩
  intro buffer hdr hb h
  have hshape := partB buffer CONFIG_UUID hdr hb h
  have hcfg : isUUIDShape CONFIG_UUID = false := by decide
  rw [hshape] at hcfg
  exact Bool.noConfusion hcfg

theorem c10_token_shape_witness :
    isUUIDShape (uuidFormat (List.replicate 16 0)) = true ∧
    processVlessHeader domBuf CONFIG_UUID ≠ .ok (.success domHdr) :=
  ⟨c10_token_shape.1 (List.replicate 16 0) (by decide) (by decide),
   c10_token_shape.2.2.2 domBuf domHdr (by decide)⟩

/-! Connection objects and safe closure: `safeClose` from
websocket-proxy.js and `safeCloseWebSocket` from websocket-handler.js. -/

/-- JavaScript value of a connection object's `readyState` property: a
number on a WebSocket, a string on a Node `net.Socket`; `undef` models a
missing property. -/
inductive JsReadyState where
  | num (n : Nat)
  | str (st : String)
  | undef
deriving Repr, DecidableEq

/-- A connection object as `safeClose` sees it: its `readyState`, its
`destroyed` property (`none` models `undefined`, as on a WebSocket), and
whether its `close`/`destroy` method would throw when invoked. -/
structure ConnObj where
  readyState : JsReadyState
  destroyed : Option Bool
  closeThrows : Bool
deriving Repr, DecidableEq

/-- Effect of `ws.close()`: an OPEN (1) or CONNECTING (0) numeric
`readyState` moves to CLOSING (2); the call may throw. -/
def jsClose (c : ConnObj) : Except JsAbort ConnObj :=
  if c.closeThrows then .error (.thrown "close failed")
  else .ok { c with readyState :=
    match c.readyState with
    | .num 0 => .num 2
    | .num 1 => .num 2
    | rs => rs }

/-- Effect of `socket.destroy()`: sets `destroyed`; a string `readyState`
becomes `"closed"`; the call may throw. -/
def jsDestroy (c : ConnObj) : Except JsAbort ConnObj :=
  if c.closeThrows then .error (.thrown "destroy failed")
  else
    let rs2 :=
      match c.readyState with
      | .str _ => JsReadyState.str "closed"
      | rs => rs
    .ok { c with destroyed := some true, readyState := rs2 }

/-- `safeClose` from websocket-proxy.js: null check, `close()` when
`readyState` is 1 or 0, else `destroy()` when `destroyed === false`; the
body is wrapped in a `try … catch` that ignores every error, so a throw
leaves the object unchanged and is swallowed.  An `Except.error` result
would mean an uncaught exception escaped. -/
def safeClose (conn : Option ConnObj) : Except JsAbort (Option ConnObj) :=
  let body : Except JsAbort (Option ConnObj) :=
    match conn with
    | none => .ok none
    | some c =>
      if c.readyState = JsReadyState.num 1 ∨ c.readyState = JsReadyState.num 0 then
        (jsClose c).map some
      else if c.destroyed = some false then
        (jsDestroy c).map some
      else .ok (some c)
  match body with
  | .ok r => .ok r
  | .error _ => .ok conn

/-- `safeCloseWebSocket` from websocket-handler.js: reads `ws.readyState`
(a throw on a null receiver), calls `close()` when OPEN or CONNECTING, and
catches and logs every error. -/
def safeCloseWebSocket (ws : Option ConnObj) : Except JsAbort (Option ConnObj) :=
  let body : Except JsAbort (Option ConnObj) :=
    match ws with
    | none => .error (.thrown "TypeError: cannot read readyState of null")
    | some c =>
      if c.readyState = JsReadyState.num 1 ∨ c.readyState = JsReadyState.num 0 then
        (jsClose c).map some
      else .ok (some c)
  match body with
  | .ok r => .ok r
  | .error _ => .ok ws

/-- A real connection object: a WebSocket (numeric `readyState`, no
`destroyed` property) or a Node socket (string `readyState`, boolean
`destroyed`). -/
def realConn (c : ConnObj) : Bool :=
  match c.readyState, c.destroyed with
  | .num _, none => true
  | .str _, some _ => true
  | _, _ => false

theorem safeClose_total (conn : Option ConnObj) :
    ∃ r, safeClose conn = .ok r := by
  match conn with
  | none => exact ⟨none, rfl⟩
  | some c =>
    by_cases h1 : c.readyState = JsReadyState.num 1 ∨ c.readyState = JsReadyState.num 0 <;>
    by_cases h2 : c.destroyed = some false <;>
    rcases hth : c.closeThrows with _ | _ <;>
      simp [safeClose, jsClose, jsDestroy, Except.map, h1, h2, hth]

theorem safeCloseWebSocket_total (ws : Option ConnObj) :
    ∃ r, safeCloseWebSocket ws = .ok r := by
  match ws with
  | none => exact ⟨none, rfl⟩
  | some c =>
    by_cases h1 : c.readyState = JsReadyState.num 1 ∨ c.readyState = JsReadyState.num 0 <;>
    rcases hth : c.closeThrows with _ | _ <;>
      simp [safeCloseWebSocket, jsClose, Except.map, h1, hth]

theorem safeClose_idem (c : ConnObj) (r : Option ConnObj) (hreal : realConn c = true)
    (h : safeClose (some c) = .ok r) : safeClose r = .ok r := by
  obtain ⟨rs, d, th⟩ := c
  rcases rs with n | st | _ <;> rcases d with _ | b <;> simp [realConn] at hreal
  · by_cases h1 : n = 1 ∨ n = 0
    · rcases h1 with h1 | h1 <;> subst h1 <;> rcases hth : th with _ | _ <;>
        simp [safeClose, jsClose, jsDestroy, Except.map, hth] at h <;> subst h <;>
        simp [safeClose, jsClose, jsDestroy, Except.map, hth]
    · rcases hth : th with _ | _ <;>
        simp [safeClose, jsClose, jsDestroy, Except.map, h1, hth] at h <;> subst h <;>
        simp [safeClose, jsClose, jsDestroy, Except.map, h1, hth]
  · rcases hb : b with _ | _ <;> rcases hth : th with _ | _ <;>
      simp only [hb, hth] at h <;>
      simp [safeClose, jsClose, jsDestroy, Except.map] at h <;> subst h <;>
      simp [safeClose, jsClose, jsDestroy, Except.map]

theorem safeCloseWebSocket_idem (ws r : Option ConnObj)
    (h : safeCloseWebSocket ws = .ok r) : safeCloseWebSocket r = .ok r := by
  match ws with
  | none =>
    simp [safeCloseWebSocket] at h
    subst h
    rfl
  | some c =>
    obtain ⟨rs, d, th⟩ := c
    rcases rs with n | st | _
    · by_cases h1 : n = 1 ∨ n = 0
      · rcases h1 with h1 | h1 <;> subst h1 <;> rcases hth : th with _ | _ <;>
          simp [safeCloseWebSocket, jsClose, Except.map, hth] at h <;> subst h <;>
          simp [safeCloseWebSocket, jsClose, Except.map, hth]
      · rcases hth : th with _ | _ <;>
          simp [safeCloseWebSocket, jsClose, Except.map, h1, hth] at h <;> subst h <;>
          simp [safeCloseWebSocket, jsClose, Except.map, h1, hth]
    · rcases hth : th with _ | _ <;>
        simp [safeCloseWebSocket, jsClose, Except.map, hth] at h <;> subst h <;>
        simp [safeCloseWebSocket, jsClose, Except.map, hth]
    · rcases hth : th with _ | _ <;>
        simp [safeCloseWebSocket, jsClose, Except.map, hth] at h <;> subst h <;>
        simp [safeCloseWebSocket, jsClose, Except.map, hth]

/-- C7: closing a connection is exception-free and idempotent: `safeClose`
and `safeCloseWebSocket` never let an error escape on any connection value
(open, connecting, closed, destroyed, throwing, or null), and calling
either again on the object it produced is a no-op that also cannot raise. -/
theorem c7_close_idempotent_no_throw :
    (∀ conn : Option ConnObj, ∃ r, safeClose conn = .ok r) ∧
    (∀ (c : ConnObj) (r : Option ConnObj), realConn c = true →
      safeClose (some c) = .ok r → safeClose r = .ok r) ∧
    (∀ ws : Option ConnObj, ∃ r, safeCloseWebSocket ws = .ok r) ∧
    (∀ ws r : Option ConnObj,
      safeCloseWebSocket ws = .ok r → safeCloseWebSocket r = .ok r) :=
  ⟨safeClose_total, safeClose_idem, safeCloseWebSocket_total, safeCloseWebSocket_idem⟩

theorem c7_close_idempotent_no_throw_witness :
    safeClose (some ⟨JsReadyState.str "closed", some true, false⟩) =
      .ok (some ⟨JsReadyState.str "closed", some true, false⟩) ∧
    safeCloseWebSocket (some ⟨JsReadyState.num 2, none, false⟩) =
      .ok (some ⟨JsReadyState.num 2, none, false⟩) :=
  ⟨c7_close_idempotent_no_throw.2.1 ⟨JsReadyState.str "open", some false, false⟩
      (some ⟨JsReadyState.str "closed", some true, false⟩) (by decide) (by decide),
   c7_close_idempotent_no_throw.2.2.2 (some ⟨JsReadyState.num 1, none, false⟩)
      (some ⟨JsReadyState.num 2, none, false⟩) (by decide)⟩

/-! The relay session: `handleWebSocketUpgrade` from websocket-proxy.js,
as a step function over the events its handlers receive.  Each step
returns the updated closure state and the list of externally visible
actions the handler performs, in program order. -/

/-- The `TIMEOUT` value of `src/config.js` (used as `config.TIMEOUT ||
300000`). -/
def CONFIG_TIMEOUT : Nat := 300000

/-- Externally visible actions of the session handlers. -/
inductive Action where
  | connectTo (host : String) (port : Nat)
  | armTimeout (ms : Nat)
  | writeRemote (bytes : List Nat)
  | sendWs (bytes : List Nat)
  | closeWs (code : Nat)
  | closeWsPlain
  | destroyRemote
  | warnNotReady
deriving Repr, DecidableEq

/-- The outbound socket as the session tracks it. -/
structure RemoteState where
  connected : Bool
  destroyed : Bool
deriving Repr, DecidableEq

/-- The closure variables of `handleWebSocketUpgrade`, plus the first
message buffer and payload offset captured by the connect callback, plus
whether the WebSocket is still open. -/
structure Session where
  remoteSocket : Option RemoteState
  isFirstMessage : Bool
  isHeaderProcessed : Bool
  pendingBuffer : List Nat
  payloadStartIndex : Nat
  wsOpen : Bool
deriving Repr, DecidableEq

/-- The state when a session is created. -/
def initSession : Session :=
  { remoteSocket := none, isFirstMessage := true, isHeaderProcessed := false,
    pendingBuffer := [], payloadStartIndex := 0, wsOpen := true }

/-- The events a session's handlers can receive. -/
inductive SessionEvent where
  | wsMessage (data : List Nat)
  | remoteConnected
  | remoteData (chunk : List Nat)
  | remoteEnd
  | remoteError
  | remoteTimeout
  | wsClosed
  | wsError
deriving Repr, DecidableEq

/-- `safeClose(remoteSocket)`: destroys the socket when present and not
yet destroyed, otherwise does nothing. -/
def safeCloseRemote (s : Session) : Session × List Action :=
  match s.remoteSocket with
  | some r =>
    if r.destroyed then (s, [])
    else ({ s with remoteSocket := some { r with destroyed := true } },
          [.destroyRemote])
  | none => (s, [])

/-- `safeClose(ws)`: closes the WebSocket when it is still open. -/
def safeCloseWs (s : Session) : Session × List Action :=
  if s.wsOpen then ({ s with wsOpen := false }, [.closeWsPlain]) else (s, [])

/-- `ws.close(code, reason)`. -/
def wsCloseCode (s : Session) (code : Nat) : Session × List Action :=
  ({ s with wsOpen := false }, [.closeWs code])

/-- One handler activation of `handleWebSocketUpgrade`: the `message`
handler (first message: decode, close on failure, `net.connect` plus
`setTimeout` on success; later messages: forward when the header is
processed and the socket is live, warn when the connection is not ready),
the connect callback (mark processed, forward the initial payload when
the first message had bytes beyond `rawDataIndex`, start the remote
pipe), the pipe handlers for remote `data`/`end`/`error`, the timeout
callback, and the `close`/`error` handlers of the WebSocket. -/
def sessionStep (uuid : String) (s : Session) (e : SessionEvent) :
    Session × List Action :=
  match e with
  | .wsMessage data =>
    if s.isFirstMessage then
      let s1 := { s with isFirstMessage := false }
      match processVlessHeader data uuid with
      | .error _ =>
        let p2 := safeCloseRemote s1
        let p3 := wsCloseCode p2.1 1011
        (p3.1, p2.2 ++ p3.2)
      | .ok (.failure _) => wsCloseCode s1 1008
      | .ok (.success hdr) =>
        ({ s1 with
            remoteSocket := some { connected := false, destroyed := false },
            pendingBuffer := data,
            payloadStartIndex := hdr.rawDataIndex },
         [.connectTo hdr.addressRemote hdr.portRemote,
          .armTimeout CONFIG_TIMEOUT])
    else
      match s.remoteSocket with
      | some r =>
        if s.isHeaderProcessed && !r.destroyed then (s, [.writeRemote data])
        else if !s.isHeaderProcessed then (s, [.warnNotReady])
        else (s, [])
      | none =>
        if !s.isHeaderProcessed then (s, [.warnNotReady]) else (s, [])
  | .remoteConnected =>
    match s.remoteSocket with
    | some r =>
      let s1 := { s with isHeaderProcessed := true,
                         remoteSocket := some { r with connected := true } }
      if s1.payloadStartIndex < s1.pendingBuffer.length then
        (s1, [.writeRemote (s1.pendingBuffer.drop s1.payloadStartIndex)])
      else (s1, [])
    | none => (s, [])
  | .remoteData chunk =>
    if s.wsOpen then (s, [.sendWs chunk]) else (s, [])
  | .remoteEnd => safeCloseWs s
  | .remoteError =>
    let p1 := wsCloseCode s 1011
    let p2 := safeCloseRemote p1.1
    (p2.1, p1.2 ++ p2.2)
  | .remoteTimeout =>
    let p1 := safeCloseRemote s
    let p2 := safeCloseWs p1.1
    (p2.1, p1.2 ++ p2.2)
  | .wsClosed => safeCloseRemote s
  | .wsError =>
    let p1 := safeCloseRemote s
    let p2 := safeCloseWs p1.1
    (p2.1, p1.2 ++ p2.2)

/-- Running a session over a list of events, collecting all actions. -/
def sessionRun (uuid : String) : Session → List SessionEvent → Session × List Action
  | s, [] => (s, [])
  | s, e :: es =>
    let p := sessionStep uuid s e
    let q := sessionRun uuid p.1 es
    (q.1, p.2 ++ q.2)

/-- Recognizes the TCP-connect action. -/
def actionIsConnect : Action → Bool
  | .connectTo _ _ => true
  | _ => false

/-- Recognizes a write to the outbound socket. -/
def actionIsWrite : Action → Bool
  | .writeRemote _ => true
  | _ => false

/-- Recognizes the arming of the idle timeout. -/
def actionIsArm : Action → Bool
  | .armTimeout _ => true
  | _ => false

theorem find?_append_none {α} (p : α → Bool) (l₁ l₂ : List α)
    (h : ∀ a ∈ l₁, p a = false) : (l₁ ++ l₂).find? p = l₂.find? p := by
  induction l₁ with
  | nil => rfl
  | cons a t ih =>
    have ha : p a = false := h a (by simp)
    rw [List.cons_append]
    rw [List.find?_cons]
    rw [ha]
    exact ih fun b hb => h b (List.mem_cons_of_mem _ hb)

/-- After the first message, a step never connects, never arms the
timeout, and the session stays past its first message. -/
theorem step_after_first (uuid : String) (s : Session) (e : SessionEvent)
    (h1 : s.isFirstMessage = false) :
    (sessionStep uuid s e).1.isFirstMessage = false ∧
      ∀ a ∈ (sessionStep uuid s e).2,
        actionIsConnect a = false ∧ actionIsArm a = false := by
  rcases e with data | _ | chunk | _ | _ | _ | _ | _ <;>
    rcases hr : s.remoteSocket with _ | r <;>
      simp [sessionStep, h1, hr, safeCloseRemote, safeCloseWs, wsCloseCode,
        actionIsConnect, actionIsArm] <;>
      split_ifs <;>
      simp [actionIsConnect, actionIsArm, h1]

/-- After the first message, a whole run never connects or arms. -/
theorem run_after_first (uuid : String) :
    ∀ (events : List SessionEvent) (s : Session),
      s.isFirstMessage = false →
      ∀ a ∈ (sessionRun uuid s events).2,
        actionIsConnect a = false ∧ actionIsArm a = false := by
  intro events
  induction events with
  | nil =>
    intro s h1 a ha
    simp [sessionRun] at ha
  | cons e es ih =>
    intro s h1 a ha
    obtain ⟨hpres, hacts⟩ := step_after_first uuid s e h1
    simp only [sessionRun, List.mem_append] at ha
    rcases ha with ha | ha
    · exact hacts a ha
    · exact ih _ hpres a ha

/-- C5: when the decoder rejects the first message, the session's first
action is closing the transport WebSocket (code 1008), and no TCP
connection is ever opened during the session, whatever events follow. -/
theorem c5_decode_failure_closes (uuid : String) (data : List Nat) (msg : String)
    (events : List SessionEvent)
    (hfail : processVlessHeader data uuid = .ok (.failure msg)) :
    ((sessionRun uuid initSession (.wsMessage data :: events)).2.head? =
      some (.closeWs 1008)) ∧
    ∀ a ∈ (sessionRun uuid initSession (.wsMessage data :: events)).2,
      actionIsConnect a = false := by
  have hstep : sessionStep uuid initSession (.wsMessage data) =
      ({ initSession with isFirstMessage := false, wsOpen := false },
       [.closeWs 1008]) := by
    simp [sessionStep, initSession, hfail, wsCloseCode]
  constructor
  · simp only [sessionRun, hstep]
    rfl
  · intro a ha
    simp only [sessionRun, hstep, List.mem_append] at ha
    rcases ha with ha | ha
    · simp at ha
      subst ha
      rfl
    · exact (run_after_first uuid events _ rfl a ha).1

theorem c5_decode_failure_closes_witness :
    ((sessionRun "x" initSession
        [.wsMessage [], .wsMessage [1], .remoteConnected, .remoteData [2]]).2.head? =
      some (.closeWs 1008)) ∧
    actionIsConnect (.closeWs 1008) = false :=
  ⟨(c5_decode_failure_closes "x" [] "Invalid VLESS header: buffer too short"
      [.wsMessage [1], .remoteConnected, .remoteData [2]] (by decide)).1,
   (c5_decode_failure_closes "x" [] "Invalid VLESS header: buffer too short"
      [.wsMessage [1], .remoteConnected, .remoteData [2]] (by decide)).2
     (.closeWs 1008) (by decide)⟩

/-- One step out of a waiting-for-connection state either performs exactly
the initial-payload write (the connect callback) or performs no write at
all and stays in a waiting state with the same captured first message. -/
theorem step_write_cases (uuid : String) (s : Session) (e : SessionEvent)
    (data : List Nat) (start : Nat)
    (h1 : s.isFirstMessage = false) (h2 : s.isHeaderProcessed = false)
    (h3 : s.pendingBuffer = data) (h4 : s.payloadStartIndex = start)
    (h5 : start < data.length) :
    ((sessionStep uuid s e).2 = [.writeRemote (data.drop start)]) ∨
    ((∀ a ∈ (sessionStep uuid s e).2, actionIsWrite a = false) ∧
      (sessionStep uuid s e).1.isFirstMessage = false ∧
      (sessionStep uuid s e).1.isHeaderProcessed = false ∧
      (sessionStep uuid s e).1.pendingBuffer = data ∧
      (sessionStep uuid s e).1.payloadStartIndex = start) := by
  rcases e with d | _ | chunk | _ | _ | _ | _ | _ <;>
    rcases hr : s.remoteSocket with _ | r <;>
      simp [sessionStep, h1, h2, h3, h4, h5, hr, safeCloseRemote, safeCloseWs,
        wsCloseCode, actionIsWrite] <;>
      split_ifs <;>
      simp [actionIsWrite, h1, h2, h3, h4]

/-- In a run from a waiting-for-connection state, the first write to the
outbound socket, if any, is the initial payload of the first message. -/
theorem run_first_write (uuid : String) (data : List Nat) (start : Nat)
    (h5 : start < data.length) :
    ∀ (events : List SessionEvent) (s : Session),
      s.isFirstMessage = false → s.isHeaderProcessed = false →
      s.pendingBuffer = data → s.payloadStartIndex = start →
      ∀ a, ((sessionRun uuid s events).2.find? actionIsWrite) = some a →
        a = .writeRemote (data.drop start) := by
  intro events
  induction events with
  | nil =>
    intro s _ _ _ _ a ha
    simp [sessionRun] at ha
  | cons e es ih =>
    intro s h1 h2 h3 h4 a ha
    simp only [sessionRun] at ha
    rcases step_write_cases uuid s e data start h1 h2 h3 h4 h5 with
      hl | ⟨hn, p1, p2, p3, p4⟩
    · rw [hl] at ha
      rw [List.cons_append, List.find?_cons] at ha
      simp [actionIsWrite] at ha
      exact ha.symm
    · rw [find?_append_none _ _ _ hn] at ha
      exact ih _ p1 p2 p3 p4 a ha

/-- C6: when the first message decodes successfully and carries payload
bytes beyond the header, the first write that ever reaches the outbound
socket is exactly that initial payload — later transport messages
arriving before the connection is ready are only warned about, never
written ahead of it. -/
theorem c6_initial_payload_first (uuid : String) (data : List Nat)
    (hdr : VlessHeader) (events : List SessionEvent)
    (hok : processVlessHeader data uuid = .ok (.success hdr))
    (hpay : hdr.rawDataIndex < data.length) :
    ∀ a, ((sessionRun uuid initSession (.wsMessage data :: events)).2.find?
        actionIsWrite) = some a →
      a = .writeRemote (data.drop hdr.rawDataIndex) := by
  intro a ha
  have hstep : sessionStep uuid initSession (.wsMessage data) =
      ({ initSession with
          isFirstMessage := false,
          remoteSocket := some { connected := false, destroyed := false },
          pendingBuffer := data,
          payloadStartIndex := hdr.rawDataIndex },
       [.connectTo hdr.addressRemote hdr.portRemote,
        .armTimeout CONFIG_TIMEOUT]) := by
    simp [sessionStep, initSession, hok]
  simp only [sessionRun, hstep] at ha
  rw [find?_append_none _ _ _ (by simp [actionIsWrite])] at ha
  exact run_first_write uuid data hdr.rawDataIndex hpay events _
    rfl rfl rfl rfl a ha

theorem c6_initial_payload_first_witness :
    (((sessionRun zeroToken initSession
        [.wsMessage domBuf, .remoteConnected, .wsMessage [9]]).2.find?
        actionIsWrite) = some (.writeRemote [222])) ∧
    Action.writeRemote [222] = .writeRemote (domBuf.drop domHdr.rawDataIndex) :=
  ⟨by decide,
   c6_initial_payload_first zeroToken domBuf domHdr
     [.remoteConnected, .wsMessage [9]] (by decide) (by decide)
     (.writeRemote [222]) (by decide)⟩

/-! The idle timeout.  The handler calls
`remoteSocket.setTimeout(config.TIMEOUT || 300000, cb)` once, when the
outbound socket is created.  `idleFireTime` is modelled from the Node.js
documentation of `net.Socket.setTimeout`, the platform primitive this
call uses: the socket times out after the given duration of inactivity on
the socket, and the timer restarts whenever there is read or write
activity. -/

/-- When the timeout callback fires: given the duration, the time the
timer was (re)armed, and the nondecreasing times of subsequent socket
activity, the callback runs at the end of the first window of `duration`
with no activity. -/
def idleFireTime (duration : Nat) : Nat → List Nat → Nat
  | base, [] => base + duration
  | base, a :: rest =>
    if a ≤ base + duration then idleFireTime duration a rest
    else base + duration

/-- A run emits no arming action once the first message is past. -/
theorem run_arm_zero (uuid : String) (events : List SessionEvent) (s : Session)
    (h1 : s.isFirstMessage = false) :
    (sessionRun uuid s events).2.countP actionIsArm = 0 := by
  rw [List.countP_eq_zero]
  intro a ha
  simp [(run_after_first uuid events s h1 a ha).2]

/-- A single step arms the timer at most once, and only while consuming
the first message. -/
theorem step_arm_bound (uuid : String) (s : Session) (e : SessionEvent) :
    (sessionStep uuid s e).2.countP actionIsArm +
      (if (sessionStep uuid s e).1.isFirstMessage = true then 1 else 0) ≤
      (if s.isFirstMessage = true then 1 else 0) := by
  rcases hfm : s.isFirstMessage with _ | _
  · obtain ⟨hpres, hacts⟩ := step_after_first uuid s e hfm
    have hz : (sessionStep uuid s e).2.countP actionIsArm = 0 := by
      rw [List.countP_eq_zero]
      intro a ha
      simp [(hacts a ha).2]
    simp [hz, hpres, hfm]
  · rcases e with data | _ | chunk | _ | _ | _ | _ | _ <;>
      rcases hr : s.remoteSocket with _ | r0
    · rcases hd : processVlessHeader data uuid with err | r <;>
        try rcases r with m | hdr
      all_goals
        simp [sessionStep, hfm, hd, hr, wsCloseCode, safeCloseRemote,
          actionIsArm, List.countP_cons]
    · rcases hd : processVlessHeader data uuid with err | r <;>
        try rcases r with m | hdr
      all_goals
        simp [sessionStep, hfm, hd, hr, wsCloseCode, safeCloseRemote,
          actionIsArm, List.countP_cons] <;>
        split_ifs <;>
        simp [actionIsArm, List.countP_cons, hfm]
    all_goals
      simp [sessionStep, hfm, hr, wsCloseCode, safeCloseRemote, safeCloseWs,
        actionIsArm, List.countP_cons] <;>
      split_ifs <;>
      simp [actionIsArm, List.countP_cons, hfm]

/-- A whole session run arms the idle timer at most once. -/
theorem run_arm_le_one (uuid : String) :
    ∀ (events : List SessionEvent) (s : Session),
      (sessionRun uuid s events).2.countP actionIsArm ≤
        (if s.isFirstMessage = true then 1 else 0) := by
  intro events
  induction events with
  | nil =>
    intro s
    simp [sessionRun]
  | cons e es ih =>
    intro s
    have hstep := step_arm_bound uuid s e
    have hrest := ih (sessionStep uuid s e).1
    simp only [sessionRun, List.countP_append]
    omega

/-- C8 counterexample: the idle timeout is a Node inactivity timeout, so a
session armed at time 0 with the configured 300000 ms that sees activity
at 200000 and 400000 has its timeout fire only at 700000; the connection
already lasted longer than the configured duration at 300000, yet is not
forcibly closed then — recent activity defers the close, contradicting
"regardless of recent read or write activity". -/
theorem c8_timeout_counterexample :
    idleFireTime CONFIG_TIMEOUT 0 [200000, 400000] = 700000 ∧
    ¬ idleFireTime CONFIG_TIMEOUT 0 [200000, 400000] ≤ CONFIG_TIMEOUT := by
  constructor
  · rfl
  · decide

/-- C8 (amended): the timeout is armed at most once per session, together
with the TCP connect of the successful first message and with the
configured duration; it is an inactivity timeout (restarted by socket
activity, per Node's `setTimeout` semantics), so a silent outbound
connection is forcibly closed once the duration elapses with no activity,
and when it fires the handler safe-closes both the outbound socket and
the WebSocket. -/
theorem c8_idle_timeout_amended :
    (∀ (uuid : String) (events : List SessionEvent),
      (sessionRun uuid initSession events).2.countP actionIsArm ≤ 1) ∧
    (∀ (uuid : String) (s : Session) (data : List Nat) (hdr : VlessHeader),
      s.isFirstMessage = true →
      processVlessHeader data uuid = .ok (.success hdr) →
      (sessionStep uuid s (.wsMessage data)).2 =
        [.connectTo hdr.addressRemote hdr.portRemote,
         .armTimeout CONFIG_TIMEOUT]) ∧
    (∀ base : Nat, idleFireTime CONFIG_TIMEOUT base [] = base + CONFIG_TIMEOUT) ∧
    (∀ (duration base a : Nat) (rest : List Nat), a ≤ base + duration →
      idleFireTime duration base (a :: rest) = idleFireTime duration a rest) ∧
    (∀ (uuid : String) (s : Session) (r : RemoteState),
      s.remoteSocket = some r → r.destroyed = false → s.wsOpen = true →
      (sessionStep uuid s .remoteTimeout).2 = [.destroyRemote, .closeWsPlain]) := by
  refine ⟨?_, ?_, ?_, ?_, ?_⟩
  · intro uuid events
    have := run_arm_le_one uuid events initSession
    simpa [initSession] using this
  · intro uuid s data hdr hfm hok
    simp [sessionStep, hfm, hok]
  · intro base
    rfl
  · intro duration base a rest h
    simp [idleFireTime, h]
  · intro uuid s r hr hd hw
    simp [sessionStep, safeCloseRemote, safeCloseWs, hr, hd, hw]

theorem c8_idle_timeout_amended_witness :
    idleFireTime 300000 0 [200000] = idleFireTime 300000 200000 [] ∧
    (sessionStep "x"
        { remoteSocket := some { connected := true, destroyed := false },
          isFirstMessage := false, isHeaderProcessed := true,
          pendingBuffer := [], payloadStartIndex := 0, wsOpen := true }
        .remoteTimeout).2 = [.destroyRemote, .closeWsPlain] :=
  ⟨c8_idle_timeout_amended.2.2.2.1 300000 0 200000 [] (by decide),
   c8_idle_timeout_amended.2.2.2.2 "x"
     { remoteSocket := some { connected := true, destroyed := false },
       isFirstMessage := false, isHeaderProcessed := true,
       pendingBuffer := [], payloadStartIndex := 0, wsOpen := true }
     { connected := true, destroyed := false } rfl rfl rfl⟩

end Vless
